import Mathlib

/-!
Shallow embedding of the cancellation-coordination subsystem of the `mmb`
trading engine, covering `src/core/exchanges/general/order/wait_cancel.rs`
and `src/core/statistic_service.rs`.

Modelling conventions:
* machine integers and `Decimal` amounts are modelled as `Nat` / `Rat`
  (only `+`, `<`, `>` are used by the embedded code, none of which can
  overflow a `Decimal` in the scenarios considered);
* identifiers (`ClientOrderId`, `ExchangeOrderId`, account ids, currency
  pairs) are abstracted as `Nat`;
* asynchronous nondeterminism (which arm of a `tokio::select!` fires,
  results of exchange-facing calls, concurrent mutations of the shared
  order performed by external collaborators) is externalised into
  explicit environment values consumed by the embedded functions;
* side effects that the claims talk about (issuing a cancel request,
  running a fill check, invoking the terminal-transition hooks, logging
  errors / warnings, sleeping) are recorded in an explicit effect list;
* the per-order single-flight gate of `wait_cancel_order` is modelled as
  a small-step interleaving transition system over the phases of the
  concurrently calling tasks.
-/

deriving instance DecidableEq for Except

namespace Mmb

/-- OrderStatus from `orders::order` (the six states listed in the spec). -/
inductive OrderStatus
  | Creating
  | Created
  | Canceling
  | Canceled
  | Completed
  | Failed
deriving DecidableEq, Repr

/-- OrderStatus::is_finished: true iff status is Canceled, Completed or Failed. -/
def OrderStatus.is_finished : OrderStatus → Bool
  | .Canceled => true
  | .Completed => true
  | .Failed => true
  | _ => false

/-- EventSourceType from `orders::fill`: the channel that delivered a
cancellation confirmation. -/
inductive EventSourceType
  | WebSocket
  | Rest
  | RestFallback
deriving DecidableEq, Repr

/-- AllowedEventSourceType from `exchanges::events`: the venue policy on
confirmation channels. -/
inductive AllowedEventSourceType
  | All
  | FallbackOnly
  | NonFallback
deriving DecidableEq, Repr

/-- ExchangeErrorType from `exchanges::common` (the variants used by
`wait_cancel.rs`). -/
inductive ExchangeErrorType
  | Unknown
  | ParsingError
  | PendingError
  | OrderCompleted
  | OrderNotFound
deriving DecidableEq, Repr

/-- ExchangeError from `exchanges::common`: `error_type`, a message and an
optional code; `pending_time` is the duration carried for `PendingError`
(it is not set by `ExchangeError::new`, which is modelled as 0). -/
structure ExchangeError where
  error_type : ExchangeErrorType
  message : String
  code : Option Int
  pending_time : Nat
deriving DecidableEq, Repr

/-- ExchangeError::new constructor: builds an error from a type, a message
and an optional code. -/
def ExchangeError.new (t : ExchangeErrorType) (m : String) (c : Option Int) :
    ExchangeError :=
  { error_type := t, message := m, code := c, pending_time := 0 }

/-- RequestResult from `exchanges::general::exchange`. -/
inductive RequestResult (T : Type)
  | Success (v : T)
  | Error (e : ExchangeError)
deriving DecidableEq, Repr

/-- CancelOrderResult from `exchanges::general::order::cancel`: only the
`outcome` field is read by `wait_cancel.rs` (payload abstracted to the
client order id). -/
structure CancelOrderResult where
  outcome : RequestResult Nat
deriving DecidableEq, Repr

/-- OrderInfo as returned by `get_order_info`: the two fields read by
`check_order_cancellation_status`. -/
structure OrderInfo where
  order_status : OrderStatus
  filled_amount : Rat
deriving DecidableEq, Repr

/-- The reconciliation bag `order.internal_props` (the fields read or
written by `wait_cancel.rs`). -/
structure OrderInternalProps where
  is_canceling_from_wait_cancel_order : Bool
  cancellation_event_source_type : Option EventSourceType
  last_cancellation_error : Option ExchangeErrorType
  last_order_cancellation_status_request_time : Option Nat
  filled_amount_after_cancellation : Option Rat
  canceled_not_from_wait_cancel_order : Bool
deriving DecidableEq, Repr

/-- The shared order record behind an `OrderRef`, restricted to the fields
`wait_cancel.rs` reads: id, exchange id, status, the total filled amount
(`get_fills().1`) and the internal reconciliation props. -/
structure Order where
  client_order_id : Nat
  exchange_order_id : Option Nat
  status : OrderStatus
  filled_amount : Rat
  internal_props : OrderInternalProps
deriving DecidableEq, Repr

/-- OrderEventType from `orders::order` restricted to the constructor the
coordinator emits (`CancelOrderSucceeded`); payload-carrying constructors
live in the statistics section below. -/
inductive CoordEventType
  | CancelOrderSucceeded
deriving DecidableEq, Repr

/-- Observable side effects of the coordinator, in program order: exchange
requests, fill checks, terminal-transition hooks, event emission, sleeps
and the log lines the claims mention. -/
inductive Effect
  | startCancelOrder
  | checkOrderFills (is_post_completion : Bool)
  | handleCancelOrderFailed (exchange_order_id : Nat) (error : ExchangeError)
      (source : EventSourceType)
  | handleCancelOrderSucceeded (client_order_id : Nat) (exchange_order_id : Nat)
      (filled_amount : Rat) (source : EventSourceType)
  | addEvent (t : CoordEventType)
  | sleep (d : Nat)
  | orderFinishFuture
  | checkCancellationStatusCall
  | logWarn
  | logError
deriving DecidableEq, Repr

/-- Exchange features read by `wait_cancel.rs`. -/
structure Features where
  allowed_cancel_event_source_type : AllowedEventSourceType
deriving DecidableEq, Repr

/-- Concurrent mutation of the shared order performed by external
collaborators (WebSocket handlers, `handle_cancel_order_succeeded`, fill
processing, ...) between two suspension points of the coordinator. Each
field is `none` when the collaborator leaves it unchanged. External code
never writes `is_canceling_from_wait_cancel_order`: in the repository that
latch is written only by `wait_cancel_order_work`. -/
structure ExternalUpdate where
  status : Option OrderStatus := none
  cancellation_event_source_type : Option (Option EventSourceType) := none
  last_cancellation_error : Option (Option ExchangeErrorType) := none
  filled_amount_after_cancellation : Option (Option Rat) := none
  canceled_not_from_wait_cancel_order : Option Bool := none
  filled_amount : Option Rat := none
deriving DecidableEq, Repr

/-- Application of an external mutation to the shared order. -/
def ExternalUpdate.apply (u : ExternalUpdate) (o : Order) : Order :=
  { o with
    status := u.status.getD o.status
    filled_amount := u.filled_amount.getD o.filled_amount
    internal_props := { o.internal_props with
      cancellation_event_source_type :=
        u.cancellation_event_source_type.getD
          o.internal_props.cancellation_event_source_type
      last_cancellation_error :=
        u.last_cancellation_error.getD o.internal_props.last_cancellation_error
      filled_amount_after_cancellation :=
        u.filled_amount_after_cancellation.getD
          o.internal_props.filled_amount_after_cancellation
      canceled_not_from_wait_cancel_order :=
        u.canceled_not_from_wait_cancel_order.getD
          o.internal_props.canceled_not_from_wait_cancel_order } }

/-- has_missed_fill (`wait_cancel.rs` lines 376-406): compares
`internal_props.filled_amount_after_cancellation` against the order's
filled amount; a reported amount strictly below the filled amount is a
venue misreport that is logged (`error!`) and treated as no missed fill. -/
def has_missed_fill (order : Order) : Bool × List Effect :=
  match order.internal_props.filled_amount_after_cancellation with
  | some order_filled_amount_after_cancellation =>
    if order_filled_amount_after_cancellation < order.filled_amount then
      (false, [Effect.logError])
    else
      (decide (order_filled_amount_after_cancellation > order.filled_amount), [])
  | none => (false, [])

/-- Trigger condition of the post-cancel fill check, transcribed literally
from `wait_cancel.rs` lines 182-191. Lean's `&&` binds tighter than `||`
exactly as in Rust, so this definition has the source's grouping. -/
def should_check_order_fills (check_order_fills : Bool)
    (order_has_missed_fills : Bool)
    (order_cancellation_event_source_type : Option EventSourceType)
    (order_last_cancellation_error : Option ExchangeErrorType)
    (status : OrderStatus) : Bool :=
  check_order_fills
    || order_has_missed_fills
    || order_cancellation_event_source_type == some EventSourceType.RestFallback
    || (order_cancellation_event_source_type == some EventSourceType.WebSocket
    || order_cancellation_event_source_type == some EventSourceType.Rest
    && (order_last_cancellation_error == some ExchangeErrorType.OrderNotFound
    || order_last_cancellation_error == some ExchangeErrorType.OrderCompleted))
    && status != OrderStatus.Completed

/-- Trigger condition of the post-cancel fill check as the specification
parenthesizes it (spec section 4.3 step 6 and the claim): the
`status != Completed` conjunct guards the whole disjunction and WebSocket
and Rest are grouped together before the error test. Written from the
spec's words, to be compared with `should_check_order_fills`. -/
def should_check_order_fills_spec (check_order_fills : Bool)
    (order_has_missed_fills : Bool)
    (order_cancellation_event_source_type : Option EventSourceType)
    (order_last_cancellation_error : Option ExchangeErrorType)
    (status : OrderStatus) : Bool :=
  (check_order_fills
    || order_has_missed_fills
    || order_cancellation_event_source_type == some EventSourceType.RestFallback
    || ((order_cancellation_event_source_type == some EventSourceType.WebSocket
    || order_cancellation_event_source_type == some EventSourceType.Rest)
    && (order_last_cancellation_error == some ExchangeErrorType.OrderNotFound
    || order_last_cancellation_error == some ExchangeErrorType.OrderCompleted)))
    && status != OrderStatus.Completed

/-- Tail of `wait_cancel_order_work` after the retry loop (`wait_cancel.rs`
lines 162-213): compute `has_missed_fill`, read the cancellation source
and last error, run the post-cancel fill check (`is_post_completion =
false`) when `should_check_order_fills` holds, and emit
`CancelOrderSucceeded` when the order was cancelled from an unsolicited
source and is not completed. -/
def wait_cancel_after_loop (order : Order) (check_order_fills : Bool) :
    Order × List Effect :=
  let missed := has_missed_fill order
  let order_cancellation_event_source_type :=
    order.internal_props.cancellation_event_source_type
  let order_last_cancellation_error :=
    order.internal_props.last_cancellation_error
  let fillCheckEffects :=
    if should_check_order_fills check_order_fills missed.1
        order_cancellation_event_source_type order_last_cancellation_error
        order.status then
      [Effect.checkOrderFills false]
    else []
  let cancelEventEffects :=
    if order.internal_props.canceled_not_from_wait_cancel_order
        && order.status != OrderStatus.Completed then
      [Effect.addEvent CoordEventType.CancelOrderSucceeded]
    else []
  (order, missed.2 ++ fillCheckEffects ++ cancelEventEffects)

/-- Environment of one iteration of the polling loop in
`check_order_cancellation_status`: the current time recorded into
`last_order_cancellation_status_request_time`, the external mutations
observed before the iteration and during the `get_order_info` await, and
the result of that request. An empty iteration list models
`cancellation_token.is_cancellation_requested()` turning true. -/
structure PollIter where
  now : Nat
  preUpdate : ExternalUpdate
  duringUpdate : ExternalUpdate
  result : Except ExchangeError OrderInfo
deriving DecidableEq, Repr

/-- Message of the `bail!` in `check_order_cancellation_status` when the
order has no exchange_order_id (format arguments elided). -/
def noExchangeOrderIdMsg : String :=
  "There are no exchange_order_id in order"

/-- Message of the synthesized Unknown error in
`check_order_cancellation_status`. -/
def noResponseMsg : String :=
  "There are no any response from an exchange, so probably this order was not canceling"

/-- check_order_cancellation_status (`wait_cancel.rs` lines 262-374): poll
the venue until the token is cancelled (empty environment) or the order is
finished, handling `OrderNotFound` by synthesizing an error and invoking
`handle_cancel_order_failed(…, RestFallback)` (or failing when there is no
exchange_order_id), retrying with a warning on any other error, and
dispatching on the reported status on success. External hooks are modelled
as always succeeding. -/
def check_order_cancellation_status (order : Order)
    (exchange_error : Option ExchangeError) :
    List PollIter → Except String Unit × Order × List Effect
  | [] => (Except.ok (), order, [])
  | iter :: rest =>
    let o1 := iter.preUpdate.apply order
    if o1.status.is_finished then (Except.ok (), o1, [])
    else
      let o2 := { o1 with internal_props := { o1.internal_props with
        last_order_cancellation_status_request_time := some iter.now } }
      if o2.status.is_finished then (Except.ok (), o2, [])
      else
        let o3 := iter.duringUpdate.apply o2
        if o3.status.is_finished then (Except.ok (), o3, [])
        else
          match iter.result with
          | Except.error error =>
            if error.error_type = ExchangeErrorType.OrderNotFound then
              let new_error :=
                match exchange_error with
                | some gotten_error => gotten_error
                | none =>
                  ExchangeError.new ExchangeErrorType.Unknown noResponseMsg none
              match o3.exchange_order_id with
              | some exchange_order_id =>
                (Except.ok (), o3,
                  [Effect.handleCancelOrderFailed exchange_order_id new_error
                    EventSourceType.RestFallback])
              | none => (Except.error noExchangeOrderIdMsg, o3, [])
            else
              let next := check_order_cancellation_status o3 exchange_error rest
              (next.1, next.2.1, Effect.logWarn :: next.2.2)
          | Except.ok order_info =>
            match order_info.order_status with
            | OrderStatus.Canceled =>
              match o3.exchange_order_id with
              | some exchange_order_id =>
                (Except.ok (), o3,
                  [Effect.handleCancelOrderSucceeded o3.client_order_id
                    exchange_order_id order_info.filled_amount
                    EventSourceType.RestFallback])
              | none => (Except.ok (), o3, [])
            | OrderStatus.Completed =>
              (Except.ok (), o3, [Effect.checkOrderFills false])
            | _ => (Except.ok (), o3, [])

/-- order_cancelled (`wait_cancel.rs` lines 216-260): dispatch on the
outcome of the completed cancel future. `pollEnv` is the environment for
`check_order_cancellation_status` if it is invoked; `finishResult` is the
result of the awaited `create_order_finish_future` if it is spawned (its
error propagates through the `?`). -/
def order_cancelled (order : Order)
    (cancel_order_outcome : Option CancelOrderResult)
    (pollEnv : List PollIter) (finishResult : Except String Unit) :
    Except String Unit × Order × List Effect :=
  match cancel_order_outcome with
  | some result =>
    match result.outcome with
    | RequestResult.Error error =>
      match error.error_type with
      | ExchangeErrorType.ParsingError =>
        let next := check_order_cancellation_status order (some error) pollEnv
        (next.1, next.2.1, Effect.checkCancellationStatusCall :: next.2.2)
      | ExchangeErrorType.PendingError =>
        (Except.ok (), order, [Effect.sleep error.pending_time])
      | ExchangeErrorType.OrderCompleted =>
        match finishResult with
        | Except.ok _ => (Except.ok (), order, [Effect.orderFinishFuture])
        | Except.error m => (Except.error m, order, [Effect.orderFinishFuture])
      | _ => (Except.ok (), order, [])
    | RequestResult.Success _ => (Except.ok (), order, [])
  | none => (Except.ok (), order, [])

/-- Resolution of the race inside one retry-loop iteration: either the
cancel future completed first (carrying the `Result<Option
<CancelOrderResult>>` it produced) or the 10-second fallback timer fired
first. -/
inductive RaceWinner
  | cancelCompleted (outcome : Except String (Option CancelOrderResult))
  | fallbackTimer
deriving DecidableEq, Repr

/-- Arm selection of the `tokio::select!` at `wait_cancel.rs` lines
132-154: the cancel-future arm carries the guard `if
allowed_cancel_event_source_type != FallbackOnly`; a disabled arm is never
polled, so under `FallbackOnly` the timer arm is selected even when the
cancel future is the first to complete. -/
def selectRace (allowed : AllowedEventSourceType) (w : RaceWinner) : RaceWinner :=
  match w with
  | RaceWinner.cancelCompleted outcome =>
    if allowed == AllowedEventSourceType.FallbackOnly then RaceWinner.fallbackTimer
    else RaceWinner.cancelCompleted outcome
  | RaceWinner.fallbackTimer => RaceWinner.fallbackTimer

/-- Message of the `bail!` on fallback timeout in `wait_cancel_order_work`
(spelling as in the source). -/
def timeoutMsg : String :=
  "Order was expected to cancel explicity via Rest or Web Socket but got timeout instead"

/-- Environment of one iteration of the retry loop in
`wait_cancel_order_work`: which arm of the race fired, the environments of
the futures `order_cancelled` may await, and the external mutations
observed by the `is_finished` check at the end of the iteration. -/
structure WorkIter where
  raceWinner : RaceWinner
  pollEnv : List PollIter
  finishResult : Except String Unit
  update : ExternalUpdate
deriving DecidableEq, Repr

/-- Retry loop of `wait_cancel_order_work` (`wait_cancel.rs` lines
106-160): while the token is not cancelled (environment not exhausted),
issue a cancel request, race it against the 10-second fallback timer, on
cancel completion run `order_cancelled` (propagating its error), on
timeout fail hard unless the policy is `All` (warning and re-iteration),
and exit once the order is finished. -/
def wait_cancel_loop (features : Features) (order : Order) :
    List WorkIter → Except String Unit × Order × List Effect
  | [] => (Except.ok (), order, [])
  | iter :: rest =>
    match selectRace features.allowed_cancel_event_source_type iter.raceWinner with
    | RaceWinner.cancelCompleted outcome =>
      match outcome with
      | Except.error m => (Except.error m, order, [Effect.startCancelOrder])
      | Except.ok cancel_order_outcome =>
        let handled := order_cancelled order cancel_order_outcome iter.pollEnv
          iter.finishResult
        match handled.1 with
        | Except.error m =>
          (Except.error m, handled.2.1, Effect.startCancelOrder :: handled.2.2)
        | Except.ok _ =>
          let o2 := iter.update.apply handled.2.1
          if o2.status.is_finished then
            (Except.ok (), o2, Effect.startCancelOrder :: handled.2.2)
          else
            let next := wait_cancel_loop features o2 rest
            (next.1, next.2.1,
              Effect.startCancelOrder :: (handled.2.2 ++ next.2.2))
    | RaceWinner.fallbackTimer =>
      if features.allowed_cancel_event_source_type != AllowedEventSourceType.All then
        (Except.error timeoutMsg, order, [Effect.startCancelOrder])
      else
        let o2 := iter.update.apply order
        if o2.status.is_finished then
          (Except.ok (), o2, [Effect.startCancelOrder, Effect.logWarn])
        else
          let next := wait_cancel_loop features o2 rest
          (next.1, next.2.1,
            Effect.startCancelOrder :: Effect.logWarn :: next.2.2)

/-- Environment of one `wait_cancel_order_work` call: the result of the
awaited "order created" future together with the external transition it
observes (only consulted when the order is still `Creating`), and the
retry-loop iterations. -/
structure WorkEnv where
  createdResult : Except String Unit
  createdUpdate : ExternalUpdate
  iters : List WorkIter
deriving DecidableEq, Repr

/-- wait_cancel_order_work (`wait_cancel.rs` lines 70-214): await creation
when still `Creating`, return success when already finished, atomically
read-and-set the `is_canceling_from_wait_cancel_order` latch under the
order's lock (`fn_mut`) - logging and returning success when it was
already set - then run the retry loop and the post-loop fill-check /
event-emission section. -/
def wait_cancel_order_work (features : Features) (check_order_fills : Bool)
    (env : WorkEnv) (order : Order) :
    Except String Unit × Order × List Effect :=
  let step1 : Except String Order :=
    if order.status == OrderStatus.Creating then
      match env.createdResult with
      | Except.ok _ => Except.ok (env.createdUpdate.apply order)
      | Except.error m => Except.error m
    else Except.ok order
  match step1 with
  | Except.error m => (Except.error m, order, [])
  | Except.ok o1 =>
    if o1.status.is_finished then (Except.ok (), o1, [])
    else
      let was := o1.internal_props.is_canceling_from_wait_cancel_order
      let o2 := { o1 with internal_props := { o1.internal_props with
        is_canceling_from_wait_cancel_order := true } }
      if was then (Except.ok (), o2, [Effect.logError])
      else
        let looped := wait_cancel_loop features o2 env.iters
        match looped.1 with
        | Except.error m => (Except.error m, looped.2.1, looped.2.2)
        | Except.ok _ =>
          let tail := wait_cancel_after_loop looped.2.1 check_order_fills
          (Except.ok (), tail.1, looped.2.2 ++ tail.2)

/-! Theorems -/

/-- C7: `has_missed_fill` returns true iff
`internal_props.filled_amount_after_cancellation` is set and strictly
greater than the order's filled amount; it returns false with no log when
the field is unset, and logs an error and returns false when the field is
set but strictly below the filled amount. -/
theorem has_missed_fill_characterization (o : Order) :
    ((has_missed_fill o).1 = true ↔
      ∃ a, o.internal_props.filled_amount_after_cancellation = some a ∧
        o.filled_amount < a) ∧
    (o.internal_props.filled_amount_after_cancellation = none →
      has_missed_fill o = (false, [])) ∧
    (∀ a, o.internal_props.filled_amount_after_cancellation = some a →
      a < o.filled_amount → has_missed_fill o = (false, [Effect.logError])) := by
  unfold has_missed_fill
  rcases h : o.internal_props.filled_amount_after_cancellation with _ | a
  · simp
  · by_cases hlt : a < o.filled_amount
    · refine ⟨?_, by simp, ?_⟩
      · simp only [if_pos hlt, Bool.false_eq_true, false_iff, not_exists]
        intro b hb
        rcases hb with ⟨hb1, hb2⟩
        rw [Option.some_inj] at hb1
        subst hb1
        exact lt_asymm hlt hb2
      · intro b hb hba
        rw [Option.some_inj] at hb
        subst hb
        simp [if_pos hlt]
    · refine ⟨?_, by simp, ?_⟩
      · simp only [if_neg hlt, decide_eq_true_eq, gt_iff_lt]
        constructor
        · intro hba
          exact ⟨a, rfl, hba⟩
        · rintro ⟨b, hb, hba⟩
          rw [Option.some_inj] at hb
          subst hb
          exact hba
      · intro b hb hba
        rw [Option.some_inj] at hb
        subst hb
        exact absurd hba hlt

/-- Witness for C7: a venue report of 1 against a filled amount of 2 is
logged and yields no missed fill. -/
theorem has_missed_fill_characterization_witness :
    has_missed_fill
      { client_order_id := 1, exchange_order_id := some 2,
        status := OrderStatus.Canceled, filled_amount := 2,
        internal_props :=
          { is_canceling_from_wait_cancel_order := false,
            cancellation_event_source_type := none,
            last_cancellation_error := none,
            last_order_cancellation_status_request_time := none,
            filled_amount_after_cancellation := some 1,
            canceled_not_from_wait_cancel_order := false } } =
      (false, [Effect.logError]) :=
  (has_missed_fill_characterization _).2.2 1 rfl (by norm_num)

/-- Order used as the C1 counterexample: completed, with no cancellation
source, no last error, no post-cancel fill report. -/
def c1Order : Order :=
  { client_order_id := 1, exchange_order_id := some 2,
    status := OrderStatus.Completed, filled_amount := 0,
    internal_props :=
      { is_canceling_from_wait_cancel_order := true,
        cancellation_event_source_type := none,
        last_cancellation_error := none,
        last_order_cancellation_status_request_time := none,
        filled_amount_after_cancellation := none,
        canceled_not_from_wait_cancel_order := false } }

/-- C1 counterexample: with `check_order_fills = true` and status
`Completed` the code's post-loop section still runs the post-cancel fill
check, while the claim's parenthesization (the `status != Completed`
conjunct guarding the whole disjunction) says it must not run. -/
theorem fill_check_trigger_cex :
    Effect.checkOrderFills false ∈ (wait_cancel_after_loop c1Order true).2 ∧
    should_check_order_fills_spec true false none none OrderStatus.Completed
      = false := by
  constructor
  · decide
  · decide

/-- Helper: `has_missed_fill` only ever logs; it never runs a fill check
itself. -/
theorem checkOrderFills_not_mem_has_missed_fill (o : Order) (b : Bool) :
    Effect.checkOrderFills b ∉ (has_missed_fill o).2 := by
  unfold has_missed_fill
  rcases o.internal_props.filled_amount_after_cancellation with _ | a
  · simp
  · by_cases hlt : a < o.filled_amount <;> simp [hlt]

/-- C1 amended: after the retry loop the post-cancel fill check (with
`is_post_completion = false`) runs iff the caller passed
`check_order_fills`, or `has_missed_fill` holds, or the cancellation
source is `RestFallback`, or the cancellation source is `WebSocket`, or
the cancellation source is `Rest` and the last cancellation error is
`OrderNotFound` or `OrderCompleted` - where, per Rust precedence, the
`status != Completed` conjunct guards only the WebSocket / Rest disjunct
and the error test applies only to `Rest`. -/
theorem fill_check_trigger_characterization (o : Order) (c : Bool) :
    Effect.checkOrderFills false ∈ (wait_cancel_after_loop o c).2 ↔
      (c = true ∨ (has_missed_fill o).1 = true
        ∨ o.internal_props.cancellation_event_source_type =
            some EventSourceType.RestFallback
        ∨ ((o.internal_props.cancellation_event_source_type =
              some EventSourceType.WebSocket
            ∨ (o.internal_props.cancellation_event_source_type =
                some EventSourceType.Rest
              ∧ (o.internal_props.last_cancellation_error =
                  some ExchangeErrorType.OrderNotFound
                ∨ o.internal_props.last_cancellation_error =
                  some ExchangeErrorType.OrderCompleted)))
          ∧ o.status ≠ OrderStatus.Completed)) := by
  unfold wait_cancel_after_loop
  simp only [List.mem_append, or_assoc]
  constructor
  · rintro (h | h | h)
    · exact absurd h (checkOrderFills_not_mem_has_missed_fill o false)
    · revert h
      split
      case isTrue hcond =>
        intro _
        revert hcond
        simp only [should_check_order_fills, Bool.or_eq_true, Bool.and_eq_true,
          beq_iff_eq, bne_iff_ne]
        tauto
      case isFalse => simp
    · revert h
      split <;> simp
  · intro h
    refine Or.inr (Or.inl ?_)
    have hcond : should_check_order_fills c (has_missed_fill o).1
        o.internal_props.cancellation_event_source_type
        o.internal_props.last_cancellation_error o.status = true := by
      simp only [should_check_order_fills, Bool.or_eq_true, Bool.and_eq_true,
        beq_iff_eq, bne_iff_ne]
      tauto
    simp [hcond]

/-- Witness for C1's amended theorem: instantiated at the counterexample
order with `check_order_fills = true`. -/
theorem fill_check_trigger_characterization_witness :
    Effect.checkOrderFills false ∈ (wait_cancel_after_loop c1Order true).2 ↔
      (true = true ∨ (has_missed_fill c1Order).1 = true
        ∨ c1Order.internal_props.cancellation_event_source_type =
            some EventSourceType.RestFallback
        ∨ ((c1Order.internal_props.cancellation_event_source_type =
              some EventSourceType.WebSocket
            ∨ (c1Order.internal_props.cancellation_event_source_type =
                some EventSourceType.Rest
              ∧ (c1Order.internal_props.last_cancellation_error =
                  some ExchangeErrorType.OrderNotFound
                ∨ c1Order.internal_props.last_cancellation_error =
                  some ExchangeErrorType.OrderCompleted)))
          ∧ c1Order.status ≠ OrderStatus.Completed)) :=
  fill_check_trigger_characterization c1Order true

/-- C5: `order_cancelled` dispatches on the cancel-request outcome:
`Success` or an absent outcome cause no action; `Error(ParsingError)`
invokes `check_order_cancellation_status`; `Error(PendingError)` sleeps
for `error.pending_time` and returns; `Error(OrderCompleted)` awaits the
order-finish future; every other error type causes no action. -/
theorem order_cancelled_dispatch (o : Order) (pollEnv : List PollIter)
    (finishResult : Except String Unit) :
    order_cancelled o none pollEnv finishResult = (Except.ok (), o, []) ∧
    (∀ v, order_cancelled o (some { outcome := RequestResult.Success v })
        pollEnv finishResult = (Except.ok (), o, [])) ∧
    (∀ e, e.error_type = ExchangeErrorType.ParsingError →
      order_cancelled o (some { outcome := RequestResult.Error e })
          pollEnv finishResult =
        ((check_order_cancellation_status o (some e) pollEnv).1,
         (check_order_cancellation_status o (some e) pollEnv).2.1,
         Effect.checkCancellationStatusCall ::
           (check_order_cancellation_status o (some e) pollEnv).2.2)) ∧
    (∀ e, e.error_type = ExchangeErrorType.PendingError →
      order_cancelled o (some { outcome := RequestResult.Error e })
          pollEnv finishResult =
        (Except.ok (), o, [Effect.sleep e.pending_time])) ∧
    (∀ e, e.error_type = ExchangeErrorType.OrderCompleted →
      order_cancelled o (some { outcome := RequestResult.Error e })
          pollEnv finishResult =
        (match finishResult with
         | Except.ok _ => (Except.ok (), o, [Effect.orderFinishFuture])
         | Except.error m => (Except.error m, o, [Effect.orderFinishFuture]))) ∧
    (∀ e, e.error_type ≠ ExchangeErrorType.ParsingError →
      e.error_type ≠ ExchangeErrorType.PendingError →
      e.error_type ≠ ExchangeErrorType.OrderCompleted →
      order_cancelled o (some { outcome := RequestResult.Error e })
          pollEnv finishResult = (Except.ok (), o, [])) := by
  refine ⟨rfl, fun v => rfl, ?_, ?_, ?_, ?_⟩
  · rintro ⟨t, m, c, p⟩ he
    cases he
    rfl
  · rintro ⟨t, m, c, p⟩ he
    cases he
    rfl
  · rintro ⟨t, m, c, p⟩ he
    cases he
    rfl
  · rintro ⟨t, m, c, p⟩ h1 h2 h3
    cases t <;> simp_all [order_cancelled]

/-- Witness for C5: a `PendingError` with `pending_time = 5` sleeps for 5
and returns so that the loop retries. -/
theorem order_cancelled_dispatch_witness :
    order_cancelled c1Order
        (some (CancelOrderResult.mk (RequestResult.Error
          (ExchangeError.mk ExchangeErrorType.PendingError "" none 5))))
        [] (Except.ok ()) =
      (Except.ok (), c1Order, [Effect.sleep 5]) :=
  (order_cancelled_dispatch c1Order [] (Except.ok ())).2.2.2.1 _ rfl

/-- C6: in `check_order_cancellation_status`, a `get_order_info` error of
type `OrderNotFound` synthesizes an `ExchangeError` (the supplied one if
any, otherwise a new Unknown error) and, when the order has an
exchange_order_id, calls `handle_cancel_order_failed(id, error,
RestFallback)` and breaks; without an exchange_order_id the function fails
with a descriptive error. Any other error logs a warning and retries. -/
theorem cancellation_status_order_not_found
    (order o1 o2 o3 : Order) (iter : PollIter) (rest : List PollIter)
    (ee : Option ExchangeError) (err : ExchangeError)
    (ho1 : o1 = iter.preUpdate.apply order)
    (ho2 : o2 = { o1 with internal_props := { o1.internal_props with
      last_order_cancellation_status_request_time := some iter.now } })
    (ho3 : o3 = iter.duringUpdate.apply o2)
    (hf1 : o1.status.is_finished = false)
    (hf3 : o3.status.is_finished = false)
    (hres : iter.result = Except.error err) :
    (err.error_type = ExchangeErrorType.OrderNotFound →
      (∀ eid, o3.exchange_order_id = some eid →
        check_order_cancellation_status order ee (iter :: rest) =
          (Except.ok (), o3,
           [Effect.handleCancelOrderFailed eid
             (match ee with
              | some gotten_error => gotten_error
              | none => ExchangeError.new ExchangeErrorType.Unknown
                  noResponseMsg none)
             EventSourceType.RestFallback])) ∧
      (o3.exchange_order_id = none →
        check_order_cancellation_status order ee (iter :: rest) =
          (Except.error noExchangeOrderIdMsg, o3, []))) ∧
    (err.error_type ≠ ExchangeErrorType.OrderNotFound →
      check_order_cancellation_status order ee (iter :: rest) =
        ((check_order_cancellation_status o3 ee rest).1,
         (check_order_cancellation_status o3 ee rest).2.1,
         Effect.logWarn :: (check_order_cancellation_status o3 ee rest).2.2)) := by
  have hf2 : o2.status.is_finished = false := by
    rw [ho2]
    exact hf1
  subst ho3
  subst ho2
  subst ho1
  constructor
  · intro htype
    constructor
    · intro eid heid
      simp [check_order_cancellation_status, hf1, hf2, hf3, hres, htype, heid]
    · intro heid
      simp [check_order_cancellation_status, hf1, hf2, hf3, hres, htype, heid]
  · intro htype
    simp [check_order_cancellation_status, hf1, hf2, hf3, hres, htype]

/-- Identity external update: the collaborators changed nothing. -/
def noUpdate : ExternalUpdate := {}

/-- Order used by the C6 witness: still `Canceling`, with an exchange
order id. -/
def c6Order : Order :=
  { client_order_id := 1, exchange_order_id := some 2,
    status := OrderStatus.Canceling, filled_amount := 0,
    internal_props :=
      { is_canceling_from_wait_cancel_order := true,
        cancellation_event_source_type := none,
        last_cancellation_error := none,
        last_order_cancellation_status_request_time := none,
        filled_amount_after_cancellation := none,
        canceled_not_from_wait_cancel_order := false } }

/-- Poll iteration used by the C6 witness: the venue answers with
`OrderNotFound`. -/
def c6Iter : PollIter :=
  { now := 7, preUpdate := noUpdate, duringUpdate := noUpdate,
    result := Except.error
      (ExchangeError.new ExchangeErrorType.OrderNotFound "" none) }

/-- Order state of the C6 witness after the pre-poll external update. -/
def c6O1 : Order := c6Iter.preUpdate.apply c6Order

/-- Order state of the C6 witness after recording the request time. -/
def c6O2 : Order :=
  { c6O1 with internal_props := { c6O1.internal_props with
    last_order_cancellation_status_request_time := some c6Iter.now } }

/-- Order state of the C6 witness after the during-poll external update. -/
def c6O3 : Order := c6Iter.duringUpdate.apply c6O2

/-- Witness for C6: a one-iteration environment in which the poll fails
with `OrderNotFound` and no error was supplied; the synthesized Unknown
error is handed to `handle_cancel_order_failed` with source
`RestFallback`. -/
theorem cancellation_status_order_not_found_witness :
    check_order_cancellation_status c6Order none [c6Iter] =
      (Except.ok (), c6O3,
       [Effect.handleCancelOrderFailed 2
         (ExchangeError.new ExchangeErrorType.Unknown noResponseMsg none)
         EventSourceType.RestFallback]) :=
  ((cancellation_status_order_not_found c6Order c6O1 c6O2 c6O3 c6Iter [] none
      (ExchangeError.new ExchangeErrorType.OrderNotFound "" none)
      rfl rfl rfl rfl rfl rfl).1 rfl).1 2 rfl

/-- C3: when the 10-second fallback timer fires first in a retry-loop
iteration, a policy other than `All` is a hard failure with the
"expected to cancel explicitly" error propagated out of
`wait_cancel_order_work` (so both `FallbackOnly` and `NonFallback` fail),
while policy `All` logs a warning and proceeds to the next iteration,
re-issuing the cancel; moreover the cancel-future arm is never selected
under `FallbackOnly`. -/
theorem fallback_timeout_policy (features : Features) (c : Bool) (o : Order)
    (iter : WorkIter) (rest : List WorkIter) :
    (iter.raceWinner = RaceWinner.fallbackTimer →
      features.allowed_cancel_event_source_type ≠ AllowedEventSourceType.All →
      wait_cancel_loop features o (iter :: rest) =
        (Except.error timeoutMsg, o, [Effect.startCancelOrder])) ∧
    (iter.raceWinner = RaceWinner.fallbackTimer →
      features.allowed_cancel_event_source_type = AllowedEventSourceType.All →
      (iter.update.apply o).status.is_finished = false →
      wait_cancel_loop features o (iter :: rest) =
        ((wait_cancel_loop features (iter.update.apply o) rest).1,
         (wait_cancel_loop features (iter.update.apply o) rest).2.1,
         Effect.startCancelOrder :: Effect.logWarn ::
           (wait_cancel_loop features (iter.update.apply o) rest).2.2)) ∧
    (∀ w, selectRace AllowedEventSourceType.FallbackOnly w =
      RaceWinner.fallbackTimer) ∧
    (∀ env : WorkEnv, iter.raceWinner = RaceWinner.fallbackTimer →
      features.allowed_cancel_event_source_type ≠ AllowedEventSourceType.All →
      o.status ≠ OrderStatus.Creating →
      o.status.is_finished = false →
      o.internal_props.is_canceling_from_wait_cancel_order = false →
      env.iters = iter :: rest →
      (wait_cancel_order_work features c env o).1 = Except.error timeoutMsg) := by
  refine ⟨?_, ?_, ?_, ?_⟩
  · intro hw hne
    have hsel : selectRace features.allowed_cancel_event_source_type
        iter.raceWinner = RaceWinner.fallbackTimer := by
      rw [hw]
      cases features.allowed_cancel_event_source_type <;> rfl
    simp [wait_cancel_loop, hsel, hne]
  · intro hw hall hfin
    have hsel : selectRace AllowedEventSourceType.All iter.raceWinner =
        RaceWinner.fallbackTimer := by
      rw [hw]
      rfl
    simp [wait_cancel_loop, hall, hsel, hfin]
  · intro w
    cases w <;> rfl
  · intro env hw hne hcreating hfin hlatch hiters
    have hbeq : (o.status == OrderStatus.Creating) = false :=
      beq_eq_false_iff_ne.mpr hcreating
    have hsel : selectRace features.allowed_cancel_event_source_type
        iter.raceWinner = RaceWinner.fallbackTimer := by
      rw [hw]
      cases features.allowed_cancel_event_source_type <;> rfl
    simp [wait_cancel_order_work, hbeq, hfin, hlatch, hiters,
      wait_cancel_loop, hsel, hne]

/-- Order used by the C3 witness: created, not latched, not finished. -/
def c3Order : Order :=
  { client_order_id := 3, exchange_order_id := some 4,
    status := OrderStatus.Created, filled_amount := 0,
    internal_props :=
      { is_canceling_from_wait_cancel_order := false,
        cancellation_event_source_type := none,
        last_cancellation_error := none,
        last_order_cancellation_status_request_time := none,
        filled_amount_after_cancellation := none,
        canceled_not_from_wait_cancel_order := false } }

/-- Witness for C3: one timer-first iteration under `NonFallback` makes
`wait_cancel_order_work` fail with the timeout error. -/
theorem fallback_timeout_policy_witness :
    (wait_cancel_order_work
        { allowed_cancel_event_source_type := AllowedEventSourceType.NonFallback }
        false
        { createdResult := Except.ok (), createdUpdate := noUpdate,
          iters := [{ raceWinner := RaceWinner.fallbackTimer, pollEnv := [],
                      finishResult := Except.ok (), update := noUpdate }] }
        c3Order).1 = Except.error timeoutMsg :=
  (fallback_timeout_policy
      { allowed_cancel_event_source_type := AllowedEventSourceType.NonFallback }
      false c3Order
      { raceWinner := RaceWinner.fallbackTimer, pollEnv := [],
        finishResult := Except.ok (), update := noUpdate } []).2.2.2
    _ rfl (by decide) (by decide) rfl rfl rfl

/-- C8: `wait_cancel_order_work` reads and sets the
`is_canceling_from_wait_cancel_order` latch in one `fn_mut` read-modify-
write under the order's lock; when the latch was already set it logs an
error and returns success immediately, without entering the retry loop or
issuing any cancel request. -/
theorem second_entrant_guard (features : Features) (c : Bool) (env : WorkEnv)
    (o : Order)
    (hlatch : o.internal_props.is_canceling_from_wait_cancel_order = true)
    (hcreating : o.status ≠ OrderStatus.Creating)
    (hfin : o.status.is_finished = false) :
    wait_cancel_order_work features c env o =
      (Except.ok (), o, [Effect.logError]) := by
  have hbeq : (o.status == OrderStatus.Creating) = false :=
    beq_eq_false_iff_ne.mpr hcreating
  rcases o with ⟨cid, eid, st, fa, props⟩
  rcases props with ⟨l, cset, lce, lt, fac, cnf⟩
  simp only at hlatch
  subst hlatch
  simp [wait_cancel_order_work, hbeq, hfin]

/-- Witness for C8: a latched, unfinished order is returned untouched with
only the error log, for an environment that would otherwise drive a full
iteration. -/
theorem second_entrant_guard_witness :
    wait_cancel_order_work
        { allowed_cancel_event_source_type := AllowedEventSourceType.All }
        true
        { createdResult := Except.ok (), createdUpdate := noUpdate,
          iters := [{ raceWinner := RaceWinner.fallbackTimer, pollEnv := [],
                      finishResult := Except.ok (), update := noUpdate }] }
        c6Order =
      (Except.ok (), c6Order, [Effect.logError]) :=
  second_entrant_guard _ true _ c6Order rfl (by decide) rfl

/-- Helper: external collaborators never write the single-flight latch. -/
theorem latch_apply_eq (u : ExternalUpdate) (o : Order) :
    (u.apply o).internal_props.is_canceling_from_wait_cancel_order =
      o.internal_props.is_canceling_from_wait_cancel_order := rfl

/-- Helper: the polling loop never writes the single-flight latch. -/
theorem latch_poll_eq (ee : Option ExchangeError) (env : List PollIter)
    (o : Order) :
    (check_order_cancellation_status o ee
        env).2.1.internal_props.is_canceling_from_wait_cancel_order =
      o.internal_props.is_canceling_from_wait_cancel_order := by
  induction env generalizing o with
  | nil => rfl
  | cons iter rest ih =>
    simp only [check_order_cancellation_status]
    repeat' split
    all_goals first | rfl | exact ih _

/-- Helper: `order_cancelled` never writes the single-flight latch. -/
theorem latch_order_cancelled_eq (o : Order) (oc : Option CancelOrderResult)
    (penv : List PollIter) (fr : Except String Unit) :
    (order_cancelled o oc penv
        fr).2.1.internal_props.is_canceling_from_wait_cancel_order =
      o.internal_props.is_canceling_from_wait_cancel_order := by
  unfold order_cancelled
  repeat' split
  all_goals first | rfl | exact latch_poll_eq _ _ _

/-- Helper: the retry loop never writes the single-flight latch. -/
theorem latch_loop_eq (features : Features) (iters : List WorkIter)
    (o : Order) :
    (wait_cancel_loop features o
        iters).2.1.internal_props.is_canceling_from_wait_cancel_order =
      o.internal_props.is_canceling_from_wait_cancel_order := by
  induction iters generalizing o with
  | nil => rfl
  | cons iter rest ih =>
    simp only [wait_cancel_loop]
    repeat' split
    all_goals
      first
      | rfl
      | exact latch_order_cancelled_eq _ _ _ _
      | exact ih _
      | exact (ih _).trans (latch_order_cancelled_eq _ _ _ _)

/-- C10: no operation in the cancel coordinator resets
`is_canceling_from_wait_cancel_order`: external updates, the polling loop,
`order_cancelled` and the retry loop leave the latch unchanged,
`wait_cancel_order_work` leaves it set once set, and every later
`wait_cancel_order_work` call on a latched non-`Creating` order returns
success without issuing any cancel request. -/
theorem latch_never_reset :
    (∀ (u : ExternalUpdate) (o : Order),
      (u.apply o).internal_props.is_canceling_from_wait_cancel_order =
        o.internal_props.is_canceling_from_wait_cancel_order) ∧
    (∀ (ee : Option ExchangeError) (env : List PollIter) (o : Order),
      (check_order_cancellation_status o ee
          env).2.1.internal_props.is_canceling_from_wait_cancel_order =
        o.internal_props.is_canceling_from_wait_cancel_order) ∧
    (∀ (o : Order) (oc : Option CancelOrderResult) (penv : List PollIter)
        (fr : Except String Unit),
      (order_cancelled o oc penv
          fr).2.1.internal_props.is_canceling_from_wait_cancel_order =
        o.internal_props.is_canceling_from_wait_cancel_order) ∧
    (∀ (features : Features) (iters : List WorkIter) (o : Order),
      (wait_cancel_loop features o
          iters).2.1.internal_props.is_canceling_from_wait_cancel_order =
        o.internal_props.is_canceling_from_wait_cancel_order) ∧
    (∀ (features : Features) (c : Bool) (env : WorkEnv) (o : Order),
      o.internal_props.is_canceling_from_wait_cancel_order = true →
      (wait_cancel_order_work features c env
          o).2.1.internal_props.is_canceling_from_wait_cancel_order = true) ∧
    (∀ (features : Features) (c : Bool) (env : WorkEnv) (o : Order),
      o.internal_props.is_canceling_from_wait_cancel_order = true →
      o.status ≠ OrderStatus.Creating →
      (wait_cancel_order_work features c env o).1 = Except.ok () ∧
      Effect.startCancelOrder ∉ (wait_cancel_order_work features c env o).2.2) := by
  refine ⟨latch_apply_eq, latch_poll_eq,
    latch_order_cancelled_eq, latch_loop_eq, ?_, ?_⟩
  · intro features c env o hlatch
    by_cases hcr : (o.status == OrderStatus.Creating) = true
    · cases henv : env.createdResult with
      | error m => simp [wait_cancel_order_work, hcr, henv, hlatch]
      | ok u =>
        have hl1 : (env.createdUpdate.apply
            o).internal_props.is_canceling_from_wait_cancel_order = true :=
          (latch_apply_eq _ _).trans hlatch
        by_cases hf : (env.createdUpdate.apply o).status.is_finished = true
        · simp [wait_cancel_order_work, hcr, henv, hf, hl1]
        · simp [wait_cancel_order_work, hcr, henv, hf, hl1]
    · by_cases hf : o.status.is_finished = true
      · simp [wait_cancel_order_work, hcr, hf, hlatch]
      · simp [wait_cancel_order_work, hcr, hf, hlatch]
  · intro features c env o hlatch hcreating
    have hbeq : (o.status == OrderStatus.Creating) = false :=
      beq_eq_false_iff_ne.mpr hcreating
    by_cases hfin : o.status.is_finished = true
    · constructor <;> simp [wait_cancel_order_work, hbeq, hfin]
    · constructor <;>
        simp [wait_cancel_order_work, hbeq, hfin, hlatch]

/-- Environment used by the C10 witness: one timer-first iteration under
policy `All`. -/
def c10Env : WorkEnv :=
  { createdResult := Except.ok (), createdUpdate := noUpdate,
    iters := [{ raceWinner := RaceWinner.fallbackTimer, pollEnv := [],
                finishResult := Except.ok (), update := noUpdate }] }

/-- Witness for C10: on the already-latched order `c6Order` the inner work
returns success, issues no cancel request, and leaves the latch set. -/
theorem latch_never_reset_witness :
    (wait_cancel_order_work
        { allowed_cancel_event_source_type := AllowedEventSourceType.All }
        true c10Env c6Order).1 = Except.ok () ∧
    Effect.startCancelOrder ∉ (wait_cancel_order_work
        { allowed_cancel_event_source_type := AllowedEventSourceType.All }
        true c10Env c6Order).2.2 ∧
    (wait_cancel_order_work
        { allowed_cancel_event_source_type := AllowedEventSourceType.All }
        true c10Env
        c6Order).2.1.internal_props.is_canceling_from_wait_cancel_order = true :=
  ⟨(latch_never_reset.2.2.2.2.2 _ true c10Env c6Order rfl (by decide)).1,
   (latch_never_reset.2.2.2.2.2 _ true c10Env c6Order rfl (by decide)).2,
   latch_never_reset.2.2.2.2.1 _ true c10Env c6Order rfl⟩

/-! Single-flight gate (`wait_cancel_order`, `wait_cancel.rs` lines 36-68).
A fixed set of `n` tasks concurrently call `wait_cancel_order` for the same
`ClientOrderId`. The dashmap `entry` call is one atomic step: a task that
finds the entry occupied subscribes and waits (follower); a task that finds
it vacant registers the scopeguard, inserts the broadcast channel and runs
`wait_cancel_order_work` (leader). A leader exit (ok or error, via `?`)
publishes or closes the channel and drops the guard, which removes the map
entry; this is one atomic step setting `terminal`. Inside the work, the
`fn_mut` latch read-modify-write is one atomic step on the shared `latch`;
only its winner reaches the retry loop (`leaderLoop`) and can issue cancel
requests. Followers wake when the channel resolves (send or close) or when
their own cancellation token fires, and always return success. -/

/-- Role with which a task finished: as a follower, as a leader that never
reached the retry loop (early return or latch guard), or as the leader
that ran the retry loop. -/
inductive DoneRole
  | followerRole
  | leaderNoLoop
  | leaderLooped
deriving DecidableEq, Repr

/-- Phase of one task inside `wait_cancel_order`. -/
inductive WaitPhase
  | start
  | follower
  | leaderEntered
  | leaderLoop
  | done (ok : Bool) (role : DoneRole)
deriving DecidableEq, Repr

/-- Global state of the single-flight gate for one `ClientOrderId`:
per-task phases, map-entry occupancy, the per-order
`is_canceling_from_wait_cancel_order` latch, the broadcast-channel
resolution (`some ok` once the leader published or closed it), and
insert / remove counters for the map entry. -/
structure GState (n : Nat) where
  phase : Fin n → WaitPhase
  occupied : Bool
  latch : Bool
  terminal : Option Bool
  inserts : Nat
  removes : Nat

/-- Initial state: all tasks at entry, vacant map entry, latch clear. -/
def initState (n : Nat) : GState n :=
  { phase := fun _ => WaitPhase.start, occupied := false, latch := false,
    terminal := none, inserts := 0, removes := 0 }

/-- Leader exit: publish or close the channel (`terminal := some ok`) and
run the scopeguard, which removes the map entry, in one atomic step. -/
def exitLeader {n : Nat} (s : GState n) (i : Fin n) (ok : Bool)
    (role : DoneRole) : GState n :=
  { s with
    phase := Function.update s.phase i (WaitPhase.done ok role),
    occupied := false, terminal := some ok, removes := s.removes + 1 }

/-- Interleaving semantics of the single-flight gate; `tok i` tells
whether task i's cancellation token has been cancelled. -/
inductive Step {n : Nat} (tok : Fin n → Bool) : GState n → GState n → Prop
  | enterOccupied (s : GState n) (i : Fin n) :
      s.phase i = WaitPhase.start → s.occupied = true →
      Step tok s { s with phase := Function.update s.phase i WaitPhase.follower }
  | enterVacant (s : GState n) (i : Fin n) :
      s.phase i = WaitPhase.start → s.occupied = false →
      Step tok s { s with
        phase := Function.update s.phase i WaitPhase.leaderEntered,
        occupied := true, inserts := s.inserts + 1 }
  | earlyExit (s : GState n) (i : Fin n) (ok : Bool) :
      s.phase i = WaitPhase.leaderEntered →
      Step tok s (exitLeader s i ok DoneRole.leaderNoLoop)
  | rmwWin (s : GState n) (i : Fin n) :
      s.phase i = WaitPhase.leaderEntered → s.latch = false →
      Step tok s { s with
        phase := Function.update s.phase i WaitPhase.leaderLoop, latch := true }
  | rmwSkip (s : GState n) (i : Fin n) :
      s.phase i = WaitPhase.leaderEntered → s.latch = true →
      Step tok s (exitLeader s i true DoneRole.leaderNoLoop)
  | loopExit (s : GState n) (i : Fin n) (ok : Bool) :
      s.phase i = WaitPhase.leaderLoop →
      Step tok s (exitLeader s i ok DoneRole.leaderLooped)
  | followerWakeRecv (s : GState n) (i : Fin n) :
      s.phase i = WaitPhase.follower → s.terminal.isSome = true →
      Step tok s
        { s with
          phase := Function.update s.phase i (WaitPhase.done true DoneRole.followerRole) }
  | followerWakeCancelled (s : GState n) (i : Fin n) :
      s.phase i = WaitPhase.follower → tok i = true →
      Step tok s
        { s with
          phase := Function.update s.phase i (WaitPhase.done true DoneRole.followerRole) }

/-- Reachability of a gate state from the initial state. -/
def Reachable {n : Nat} (tok : Fin n → Bool) (s : GState n) : Prop :=
  Relation.ReflTransGen (Step tok) (initState n) s

/-- Phases in which a task holds the map entry. -/
def leaderActive : WaitPhase → Bool
  | WaitPhase.leaderEntered => true
  | WaitPhase.leaderLoop => true
  | _ => false

/-- Phases of a task that is running or has run the retry loop (the only
tasks that issue cancel requests). -/
def looper : WaitPhase → Bool
  | WaitPhase.leaderLoop => true
  | WaitPhase.done _ DoneRole.leaderLooped => true
  | _ => false

/-- Inductive invariant of the single-flight gate. -/
def GateInv {n : Nat} (s : GState n) : Prop :=
  (∀ i j, leaderActive (s.phase i) = true → leaderActive (s.phase j) = true →
    i = j) ∧
  (s.occupied = false → ∀ i, leaderActive (s.phase i) = false) ∧
  (s.occupied = true → ∃ i, leaderActive (s.phase i) = true) ∧
  s.inserts = s.removes + (if s.occupied then 1 else 0) ∧
  (∀ i j, looper (s.phase i) = true → looper (s.phase j) = true → i = j) ∧
  (s.latch = false → ∀ i, looper (s.phase i) = false) ∧
  (∀ i ok, s.phase i = WaitPhase.done ok DoneRole.followerRole → ok = true)

/-- Helper: a phase predicate that fails on the written value survives a
`Function.update` read. -/
theorem pred_update_ne {n : Nat} (p : WaitPhase → Bool) (f : Fin n → WaitPhase)
    (i k : Fin n) (v : WaitPhase) (hv : p v = false)
    (hk : p (Function.update f i v k) = true) : p (f k) = true := by
  by_cases h : k = i
  · subst h
    rw [Function.update_same] at hk
    rw [hv] at hk
    exact Bool.noConfusion hk
  · rwa [Function.update_noteq h] at hk

/-- Helper: writing a value on which a phase predicate fails keeps the
predicate everywhere-false. -/
theorem pred_update_false {n : Nat} (p : WaitPhase → Bool) (f : Fin n → WaitPhase)
    (i k : Fin n) (v : WaitPhase) (hv : p v = false)
    (hall : ∀ j, p (f j) = false) : p (Function.update f i v k) = false := by
  by_cases h : k = i
  · subst h
    rw [Function.update_same]
    exact hv
  · rw [Function.update_noteq h]
    exact hall k

/-- Helper: a phase predicate reading through a `Function.update` holds at
the written index or held before. -/
theorem pred_update_cases {n : Nat} (p : WaitPhase → Bool) (f : Fin n → WaitPhase)
    (i k : Fin n) (v : WaitPhase)
    (hk : p (Function.update f i v k) = true) :
    k = i ∨ p (f k) = true := by
  by_cases h : k = i
  · exact Or.inl h
  · right
    rwa [Function.update_noteq h] at hk

/-- Helper: the gate invariant is preserved by a step that only rewrites a
non-leader-holding task's phase to a passive value. -/
theorem gateInv_update_passive {n : Nat} {s : GState n} (hinv : GateInv s)
    (i : Fin n) (v : WaitPhase)
    (hact : leaderActive v = false) (hloop : looper v = false)
    (hphact : leaderActive (s.phase i) = false)
    (hfol : ∀ ok, v = WaitPhase.done ok DoneRole.followerRole → ok = true) :
    GateInv { s with phase := Function.update s.phase i v } := by
  obtain ⟨h1, h2, h3, h4, h5, h6, h7⟩ := hinv
  refine ⟨?_, ?_, ?_, h4, ?_, ?_, ?_⟩
  · intro k j hk hj
    exact h1 k j (pred_update_ne _ _ _ _ _ hact hk)
      (pred_update_ne _ _ _ _ _ hact hj)
  · intro ho k
    dsimp only at ho ⊢
    exact pred_update_false _ _ _ _ _ hact (h2 ho)
  · intro ho
    dsimp only at ho ⊢
    obtain ⟨j, hj⟩ := h3 ho
    have hji : j ≠ i := by
      intro e
      subst e
      rw [hphact] at hj
      exact Bool.noConfusion hj
    refine ⟨j, ?_⟩
    rwa [Function.update_noteq hji]
  · intro k j hk hj
    exact h5 k j (pred_update_ne _ _ _ _ _ hloop hk)
      (pred_update_ne _ _ _ _ _ hloop hj)
  · intro hl k
    dsimp only at hl ⊢
    exact pred_update_false _ _ _ _ _ hloop (h6 hl)
  · intro k ok hk
    dsimp only at hk
    by_cases hki : k = i
    · subst hki
      rw [Function.update_same] at hk
      exact hfol ok hk
    · rw [Function.update_noteq hki] at hk
      exact h7 k ok hk

/-- Helper: the gate invariant is preserved by a leader exit. -/
theorem gateInv_exitLeader {n : Nat} {s : GState n} (hinv : GateInv s)
    (i : Fin n) (ok : Bool) (role : DoneRole)
    (hrole : role ≠ DoneRole.followerRole)
    (hact : leaderActive (s.phase i) = true)
    (hloop : looper (WaitPhase.done ok role) = true → looper (s.phase i) = true) :
    GateInv (exitLeader s i ok role) := by
  obtain ⟨h1, h2, h3, h4, h5, h6, h7⟩ := hinv
  have hocc : s.occupied = true := by
    cases ho : s.occupied with
    | false =>
      have := h2 ho i
      rw [hact] at this
      exact Bool.noConfusion this
    | true => rfl
  have hdone : leaderActive (WaitPhase.done ok role) = false := rfl
  refine ⟨?_, ?_, ?_, ?_, ?_, ?_, ?_⟩
  · intro k j hk hj
    dsimp only [exitLeader] at hk hj
    exact h1 k j (pred_update_ne _ _ _ _ _ hdone hk)
      (pred_update_ne _ _ _ _ _ hdone hj)
  · intro _ k
    dsimp only [exitLeader]
    by_cases hki : k = i
    · subst hki
      rw [Function.update_same]
      exact hdone
    · rw [Function.update_noteq hki]
      cases hb : leaderActive (s.phase k) with
      | false => rfl
      | true =>
        exact absurd (h1 k i hb hact) hki
  · intro hh
    dsimp only [exitLeader] at hh
    exact Bool.noConfusion hh
  · rw [hocc] at h4
    dsimp only [exitLeader]
    simp at h4
    simp
    omega
  · intro k j hk hj
    dsimp only [exitLeader] at hk hj
    cases hv : looper (WaitPhase.done ok role) with
    | false =>
      exact h5 k j (pred_update_ne _ _ _ _ _ hv hk)
        (pred_update_ne _ _ _ _ _ hv hj)
    | true =>
      have hsi : looper (s.phase i) = true := hloop hv
      rcases pred_update_cases _ _ _ _ _ hk with rfl | hk2
      · rcases pred_update_cases _ _ _ _ _ hj with rfl | hj2
        · rfl
        · exact (h5 j k hj2 hsi).symm
      · rcases pred_update_cases _ _ _ _ _ hj with rfl | hj2
        · exact h5 k j hk2 hsi
        · exact h5 k j hk2 hj2
  · intro hl k
    dsimp only [exitLeader] at hl ⊢
    cases hv : looper (WaitPhase.done ok role) with
    | false => exact pred_update_false _ _ _ _ _ hv (h6 hl)
    | true =>
      have := hloop hv
      rw [h6 hl i] at this
      exact Bool.noConfusion this
  · intro k ok2 hk
    dsimp only [exitLeader] at hk
    by_cases hki : k = i
    · subst hki
      rw [Function.update_same] at hk
      injection hk with hok hrole2
      exact absurd hrole2 hrole
    · rw [Function.update_noteq hki] at hk
      exact h7 k ok2 hk

/-- Helper: every step of the single-flight gate preserves the invariant. -/
theorem step_preserves_gateInv {n : Nat} {tok : Fin n → Bool}
    {s s2 : GState n} (hinv : GateInv s) (hstep : Step tok s s2) :
    GateInv s2 := by
  cases hstep with
  | enterOccupied i hph hocc =>
    refine gateInv_update_passive hinv i _ rfl rfl ?_ ?_
    · rw [hph]
      rfl
    · intro ok h
      exact WaitPhase.noConfusion h
  | followerWakeRecv i hph hterm =>
    refine gateInv_update_passive hinv i _ rfl rfl ?_ ?_
    · rw [hph]
      rfl
    · intro ok h
      injection h with h1 _
      exact h1.symm
  | followerWakeCancelled i hph htok =>
    refine gateInv_update_passive hinv i _ rfl rfl ?_ ?_
    · rw [hph]
      rfl
    · intro ok h
      injection h with h1 _
      exact h1.symm
  | earlyExit i ok hph =>
    refine gateInv_exitLeader hinv i ok _ (fun h => DoneRole.noConfusion h) ?_ ?_
    · rw [hph]
      rfl
    · intro h
      exact Bool.noConfusion h
  | rmwSkip i hph hlatch =>
    refine gateInv_exitLeader hinv i true _ (fun h => DoneRole.noConfusion h) ?_ ?_
    · rw [hph]
      rfl
    · intro h
      exact Bool.noConfusion h
  | loopExit i ok hph =>
    refine gateInv_exitLeader hinv i ok _ (fun h => DoneRole.noConfusion h) ?_ ?_
    · rw [hph]
      rfl
    · intro _
      rw [hph]
      rfl
  | enterVacant i hph hocc =>
    obtain ⟨h1, h2, h3, h4, h5, h6, h7⟩ := hinv
    refine ⟨?_, ?_, ?_, ?_, ?_, ?_, ?_⟩
    · intro k j hk hj
      dsimp only at hk hj
      rcases pred_update_cases _ _ _ _ _ hk with rfl | hk2
      · rcases pred_update_cases _ _ _ _ _ hj with rfl | hj2
        · rfl
        · rw [h2 hocc j] at hj2
          exact Bool.noConfusion hj2
      · rw [h2 hocc k] at hk2
        exact Bool.noConfusion hk2
    · intro hh
      dsimp only at hh
      exact Bool.noConfusion hh
    · intro _
      refine ⟨i, ?_⟩
      dsimp only
      rw [Function.update_same]
      rfl
    · rw [hocc] at h4
      dsimp only
      simp at h4
      simp
      omega
    · intro k j hk hj
      dsimp only at hk hj
      exact h5 k j
        (pred_update_ne looper s.phase i k WaitPhase.leaderEntered rfl hk)
        (pred_update_ne looper s.phase i j WaitPhase.leaderEntered rfl hj)
    · intro hl k
      dsimp only at hl ⊢
      exact pred_update_false looper s.phase i k WaitPhase.leaderEntered rfl
        (h6 hl)
    · intro k ok hk
      dsimp only at hk
      by_cases hki : k = i
      · subst hki
        rw [Function.update_same] at hk
        exact WaitPhase.noConfusion hk
      · rw [Function.update_noteq hki] at hk
        exact h7 k ok hk
  | rmwWin i hph hlatch =>
    obtain ⟨h1, h2, h3, h4, h5, h6, h7⟩ := hinv
    refine ⟨?_, ?_, ?_, h4, ?_, ?_, ?_⟩
    · intro k j hk hj
      dsimp only at hk hj
      rcases pred_update_cases _ _ _ _ _ hk with rfl | hk2
      · rcases pred_update_cases _ _ _ _ _ hj with rfl | hj2
        · rfl
        · refine (h1 j k hj2 ?_).symm
          rw [hph]
          rfl
      · rcases pred_update_cases _ _ _ _ _ hj with rfl | hj2
        · refine h1 k j hk2 ?_
          rw [hph]
          rfl
        · exact h1 k j hk2 hj2
    · intro ho k
      dsimp only at ho
      have := h2 ho i
      rw [hph] at this
      exact Bool.noConfusion this
    · intro _
      refine ⟨i, ?_⟩
      dsimp only
      rw [Function.update_same]
      rfl
    · intro k j hk hj
      dsimp only at hk hj
      rcases pred_update_cases _ _ _ _ _ hk with rfl | hk2
      · rcases pred_update_cases _ _ _ _ _ hj with rfl | hj2
        · rfl
        · rw [h6 hlatch j] at hj2
          exact Bool.noConfusion hj2
      · rw [h6 hlatch k] at hk2
        exact Bool.noConfusion hk2
    · intro hl
      dsimp only at hl
      exact Bool.noConfusion hl
    · intro k ok hk
      dsimp only at hk
      by_cases hki : k = i
      · subst hki
        rw [Function.update_same] at hk
        exact WaitPhase.noConfusion hk
      · rw [Function.update_noteq hki] at hk
        exact h7 k ok hk

/-- Helper: the gate invariant holds initially. -/
theorem gateInv_init (n : Nat) : GateInv (initState n) := by
  refine ⟨?_, ?_, ?_, ?_, ?_, ?_, ?_⟩ <;> simp [initState, leaderActive, looper]

/-- Helper: the gate invariant holds in every reachable state. -/
theorem reachable_gateInv {n : Nat} {tok : Fin n → Bool} {s : GState n}
    (h : Reachable tok s) : GateInv s := by
  induction h with
  | refl => exact gateInv_init n
  | tail hr hstep ih => exact step_preserves_gateInv ih hstep

/-- Helper: once the channel is resolved, every task can reach a finished
phase in at most two further steps. -/
theorem gate_progress {n : Nat} (tok : Fin n → Bool) (s : GState n)
    (hterm : s.terminal.isSome = true) (i : Fin n) :
    ∃ s2, Relation.ReflTransGen (Step tok) s s2 ∧
      ∃ ok role, s2.phase i = WaitPhase.done ok role := by
  cases hph : s.phase i with
  | start =>
    cases hocc : s.occupied with
    | true =>
      refine ⟨_, Relation.ReflTransGen.tail
        (Relation.ReflTransGen.single (Step.enterOccupied s i hph hocc))
        (Step.followerWakeRecv _ i ?_ ?_), ?_⟩
      · dsimp only
        rw [Function.update_same]
      · exact hterm
      · refine ⟨true, DoneRole.followerRole, ?_⟩
        dsimp only
        rw [Function.update_same]
    | false =>
      refine ⟨_, Relation.ReflTransGen.tail
        (Relation.ReflTransGen.single (Step.enterVacant s i hph hocc))
        (Step.earlyExit _ i true ?_), ?_⟩
      · dsimp only
        rw [Function.update_same]
      · refine ⟨true, DoneRole.leaderNoLoop, ?_⟩
        dsimp only [exitLeader]
        rw [Function.update_same]
  | follower =>
    refine ⟨_, Relation.ReflTransGen.single
      (Step.followerWakeRecv s i hph hterm),
      true, DoneRole.followerRole, ?_⟩
    dsimp only
    rw [Function.update_same]
  | leaderEntered =>
    refine ⟨_, Relation.ReflTransGen.single (Step.earlyExit s i true hph),
      true, DoneRole.leaderNoLoop, ?_⟩
    dsimp only [exitLeader]
    rw [Function.update_same]
  | leaderLoop =>
    refine ⟨_, Relation.ReflTransGen.single (Step.loopExit s i true hph),
      true, DoneRole.leaderLooped, ?_⟩
    dsimp only [exitLeader]
    rw [Function.update_same]
  | done ok role => exact ⟨s, Relation.ReflTransGen.refl, ok, role, hph⟩

/-- C2: in every reachable state of the single-flight gate, at most one of
the concurrent `wait_cancel_order` tasks ever runs the retry loop, at most
one task holds the map entry at a time, the map entry has been removed
exactly once per successful insert except for the at-most-one entry
currently held (leader exits - ok and error alike - each remove it once),
and once any task has completed (the channel is resolved) every task can
reach a finished phase. -/
theorem wait_cancel_single_flight {n : Nat} (tok : Fin n → Bool)
    (s : GState n) (h : Reachable tok s) :
    (∀ i j, looper (s.phase i) = true → looper (s.phase j) = true → i = j) ∧
    (∀ i j, leaderActive (s.phase i) = true →
      leaderActive (s.phase j) = true → i = j) ∧
    s.inserts = s.removes + (if s.occupied then 1 else 0) ∧
    (s.terminal.isSome = true → ∀ i, ∃ s2,
      Relation.ReflTransGen (Step tok) s s2 ∧
      ∃ ok role, s2.phase i = WaitPhase.done ok role) := by
  have hinv := reachable_gateInv h
  exact ⟨hinv.2.2.2.2.1, hinv.1, hinv.2.2.2.1,
    fun ht i => gate_progress tok s ht i⟩

/-- Token assignment in which no caller's cancellation token fires. -/
def tokOff : Fin 2 → Bool := fun _ => false

/-- Gate state after task 0 entered the vacant map as leader. -/
def c4S1 : GState 2 :=
  { initState 2 with
    phase := Function.update (initState 2).phase 0 WaitPhase.leaderEntered,
    occupied := true, inserts := (initState 2).inserts + 1 }

/-- Gate state after task 1 found the entry occupied and subscribed. -/
def c4S2 : GState 2 :=
  { c4S1 with phase := Function.update c4S1.phase 1 WaitPhase.follower }

/-- Gate state after leader task 0 exited with an error: the channel is
closed and the map entry removed by the scopeguard. -/
def c4S3 : GState 2 := exitLeader c4S2 0 false DoneRole.leaderNoLoop

/-- Gate state after follower task 1 woke from the closed channel and
returned success. -/
def c4S4 : GState 2 :=
  { c4S3 with
    phase := Function.update c4S3.phase 1 (WaitPhase.done true DoneRole.followerRole) }

/-- Helper: the interleaving leader-errs-then-follower-wakes is reachable. -/
theorem c4_reach : Reachable tokOff c4S4 :=
  Relation.ReflTransGen.tail
    (Relation.ReflTransGen.tail
      (Relation.ReflTransGen.tail
        (Relation.ReflTransGen.single
          (Step.enterVacant (initState 2) 0 rfl rfl))
        (Step.enterOccupied c4S1 1 rfl rfl))
      (Step.earlyExit c4S2 0 false rfl))
    (Step.followerWakeRecv c4S3 1 rfl rfl)

/-- C4 counterexample: a reachable interleaving in which the leader's
inner work returns an error (so `wait_cancel_order` returns an error to
the leader's caller) while the follower still returns success - the
follower's result differs from the leader's, contradicting the claim that
they always coincide. -/
theorem follower_leader_result_cex :
    Reachable tokOff c4S4 ∧
    c4S4.phase 0 = WaitPhase.done false DoneRole.leaderNoLoop ∧
    c4S4.phase 1 = WaitPhase.done true DoneRole.followerRole :=
  ⟨c4_reach, rfl, rfl⟩

/-- C4 amended: every follower returns success - both when the broadcast
channel delivers or closes and when the caller's token is cancelled - in
every reachable state; the leader instead returns its inner work's result,
so the two coincide only when the leader succeeds. -/
theorem follower_always_success {n : Nat} (tok : Fin n → Bool) (s : GState n)
    (h : Reachable tok s) :
    ∀ i ok, s.phase i = WaitPhase.done ok DoneRole.followerRole → ok = true :=
  (reachable_gateInv h).2.2.2.2.2.2

/-- Witness for C4's amended theorem: the follower of the error-exiting
leader in the counterexample trace indeed finished with success. -/
theorem follower_always_success_witness :
    c4S4.phase 1 = WaitPhase.done true DoneRole.followerRole ∧ true = true :=
  ⟨rfl, follower_always_success tokOff c4S4 c4_reach 1 true rfl⟩

/-- Witness for C2: the theorem instantiated at the initial state of a
two-task gate. -/
theorem wait_cancel_single_flight_witness :
    (∀ i j : Fin 2, looper ((initState 2).phase i) = true →
      looper ((initState 2).phase j) = true → i = j) ∧
    (∀ i j : Fin 2, leaderActive ((initState 2).phase i) = true →
      leaderActive ((initState 2).phase j) = true → i = j) ∧
    (initState 2).inserts =
      (initState 2).removes + (if (initState 2).occupied then 1 else 0) ∧
    ((initState 2).terminal.isSome = true → ∀ i : Fin 2, ∃ s2,
      Relation.ReflTransGen (Step tokOff) (initState 2) s2 ∧
      ∃ ok role, s2.phase i = WaitPhase.done ok role) :=
  wait_cancel_single_flight tokOff (initState 2) Relation.ReflTransGen.refl

/-! Statistics aggregator (`statistic_service.rs`). The broadcast stream
has a single long-running consumer, so event handling is modelled as a
pure fold over the event list. -/

/-- TradePlaceAccount: the (exchange account, currency pair) grouping key. -/
structure TradePlaceAccount where
  exchange_account_id : Nat
  currency_pair : Nat
deriving DecidableEq, Repr

/-- TradePlaceAccountStatistic with its zero-valued `Default`. -/
structure TradePlaceAccountStatistic where
  opened_orders_count : Nat := 0
  canceled_orders_count : Nat := 0
  partially_filled_orders_count : Nat := 0
  fully_filled_orders_count : Nat := 0
  summary_filled_amount : Rat := 0
  summary_commission : Rat := 0
deriving DecidableEq, Repr

/-- register_created_order on the per-place counters. -/
def TradePlaceAccountStatistic.register_created_order
    (s : TradePlaceAccountStatistic) : TradePlaceAccountStatistic :=
  { s with opened_orders_count := s.opened_orders_count + 1 }

/-- register_canceled_order on the per-place counters. -/
def TradePlaceAccountStatistic.register_canceled_order
    (s : TradePlaceAccountStatistic) : TradePlaceAccountStatistic :=
  { s with canceled_orders_count := s.canceled_orders_count + 1 }

/-- increment_partially_filled_orders. -/
def TradePlaceAccountStatistic.increment_partially_filled_orders
    (s : TradePlaceAccountStatistic) : TradePlaceAccountStatistic :=
  { s with partially_filled_orders_count := s.partially_filled_orders_count + 1 }

/-- decrement_partially_filled_orders: a decrement at zero is logged
(`log::error!`) and ignored, leaving the counter unchanged. -/
def TradePlaceAccountStatistic.decrement_partially_filled_orders
    (s : TradePlaceAccountStatistic) : TradePlaceAccountStatistic :=
  if s.partially_filled_orders_count = 0 then s
  else { s with partially_filled_orders_count := s.partially_filled_orders_count - 1 }

/-- increment_completely_filled_orders. -/
def TradePlaceAccountStatistic.increment_completely_filled_orders
    (s : TradePlaceAccountStatistic) : TradePlaceAccountStatistic :=
  { s with fully_filled_orders_count := s.fully_filled_orders_count + 1 }

/-- add_summary_filled_amount. -/
def TradePlaceAccountStatistic.add_summary_filled_amount
    (s : TradePlaceAccountStatistic) (filled_amount : Rat) :
    TradePlaceAccountStatistic :=
  { s with summary_filled_amount := s.summary_filled_amount + filled_amount }

/-- add_summary_commission. -/
def TradePlaceAccountStatistic.add_summary_commission
    (s : TradePlaceAccountStatistic) (commission : Rat) :
    TradePlaceAccountStatistic :=
  { s with summary_commission := s.summary_commission + commission }

/-- The `trade_place_stats` HashMap, modelled as an association list. -/
abbrev TradePlaceStats : Type :=
  List (TradePlaceAccount × TradePlaceAccountStatistic)

/-- HashMap::entry(k).or_default() followed by an in-place mutation `f`:
updates the first binding of `k`, or appends `f default` when absent. -/
def updateEntry (m : TradePlaceStats) (k : TradePlaceAccount)
    (f : TradePlaceAccountStatistic → TradePlaceAccountStatistic) :
    TradePlaceStats :=
  match m with
  | [] => [(k, f {})]
  | (k2, v) :: rest =>
    if k2 = k then (k2, f v) :: rest else (k2, v) :: updateEntry rest k f

/-- StatisticServiceState: the per-place counters plus the disposition
executor's skipped-event counter. -/
structure StatisticServiceState where
  trade_place_stats : TradePlaceStats
  disposition_executor_stats : Nat
deriving DecidableEq

/-- StatisticServiceState::register_created_order. -/
def StatisticServiceState.register_created_order (st : StatisticServiceState)
    (trade_place_account : TradePlaceAccount) : StatisticServiceState :=
  { st with trade_place_stats := (updateEntry st.trade_place_stats
      trade_place_account TradePlaceAccountStatistic.register_created_order) }

/-- StatisticServiceState::register_canceled_order. -/
def StatisticServiceState.register_canceled_order (st : StatisticServiceState)
    (trade_place_account : TradePlaceAccount) : StatisticServiceState :=
  { st with trade_place_stats := (updateEntry st.trade_place_stats
      trade_place_account TradePlaceAccountStatistic.register_canceled_order) }

/-- StatisticServiceState::register_partially_filled_order. -/
def StatisticServiceState.register_partially_filled_order
    (st : StatisticServiceState) (trade_place_account : TradePlaceAccount) :
    StatisticServiceState :=
  { st with trade_place_stats := (updateEntry st.trade_place_stats
      trade_place_account
      TradePlaceAccountStatistic.increment_partially_filled_orders) }

/-- StatisticServiceState::decrement_partially_filled_orders. -/
def StatisticServiceState.decrement_partially_filled_orders
    (st : StatisticServiceState) (trade_place_account : TradePlaceAccount) :
    StatisticServiceState :=
  { st with trade_place_stats := (updateEntry st.trade_place_stats
      trade_place_account
      TradePlaceAccountStatistic.decrement_partially_filled_orders) }

/-- StatisticServiceState::register_completely_filled_order. -/
def StatisticServiceState.register_completely_filled_order
    (st : StatisticServiceState) (trade_place_account : TradePlaceAccount) :
    StatisticServiceState :=
  { st with trade_place_stats := (updateEntry st.trade_place_stats
      trade_place_account
      TradePlaceAccountStatistic.increment_completely_filled_orders) }

/-- StatisticServiceState::register_filled_amount. -/
def StatisticServiceState.register_filled_amount (st : StatisticServiceState)
    (trade_place_account : TradePlaceAccount) (filled_amount : Rat) :
    StatisticServiceState :=
  { st with trade_place_stats := (updateEntry st.trade_place_stats
      trade_place_account
      (fun v => v.add_summary_filled_amount filled_amount)) }

/-- StatisticServiceState::register_commission. -/
def StatisticServiceState.register_commission (st : StatisticServiceState)
    (trade_place_account : TradePlaceAccount) (commission : Rat) :
    StatisticServiceState :=
  { st with trade_place_stats := (updateEntry st.trade_place_stats
      trade_place_account (fun v => v.add_summary_commission commission)) }

/-- StatisticServiceState::register_skipped_event. -/
def StatisticServiceState.register_skipped_event (st : StatisticServiceState) :
    StatisticServiceState :=
  { st with disposition_executor_stats := st.disposition_executor_stats + 1 }

/-- StatisticService: the counters plus the set of client order ids
currently counted as partially filled. -/
structure StatisticService where
  statistic_service_state : StatisticServiceState
  partially_filled_orders : Finset Nat
deriving DecidableEq

/-- StatisticService::register_created_order. -/
def StatisticService.register_created_order (s : StatisticService)
    (trade_place_account : TradePlaceAccount) : StatisticService :=
  { s with statistic_service_state :=
      s.statistic_service_state.register_created_order trade_place_account }

/-- StatisticService::remove_filled_order_if_exist: when the order is in
the partially-filled set, decrement the per-place counter and remove it. -/
def StatisticService.remove_filled_order_if_exist (s : StatisticService)
    (trade_place_account : TradePlaceAccount) (client_order_id : Nat) :
    StatisticService :=
  if client_order_id ∈ s.partially_filled_orders then
    { statistic_service_state :=
        s.statistic_service_state.decrement_partially_filled_orders
          trade_place_account,
      partially_filled_orders :=
        s.partially_filled_orders.erase client_order_id }
  else s

/-- StatisticService::register_canceled_order. -/
def StatisticService.register_canceled_order (s : StatisticService)
    (trade_place_account : TradePlaceAccount) (client_order_id : Nat) :
    StatisticService :=
  let s1 := { s with statistic_service_state :=
    s.statistic_service_state.register_canceled_order trade_place_account }
  s1.remove_filled_order_if_exist trade_place_account client_order_id

/-- StatisticService::register_partially_filled_order: insert and count
only orders not already tracked. -/
def StatisticService.register_partially_filled_order (s : StatisticService)
    (trade_place_account : TradePlaceAccount) (client_order_id : Nat) :
    StatisticService :=
  if client_order_id ∈ s.partially_filled_orders then s
  else
    { statistic_service_state :=
        s.statistic_service_state.register_partially_filled_order
          trade_place_account,
      partially_filled_orders :=
        insert client_order_id s.partially_filled_orders }

/-- StatisticService::register_completely_filled_order. -/
def StatisticService.register_completely_filled_order (s : StatisticService)
    (trade_place_account : TradePlaceAccount) (client_order_id : Nat)
    (filled_amount : Rat) (commission : Rat) : StatisticService :=
  let s1 := { s with statistic_service_state :=
    (s.statistic_service_state.register_completely_filled_order
      trade_place_account) }
  let s2 := s1.remove_filled_order_if_exist trade_place_account client_order_id
  let s3 := { s2 with statistic_service_state :=
    (s2.statistic_service_state.register_filled_amount trade_place_account
      filled_amount) }
  { s3 with statistic_service_state :=
    (s3.statistic_service_state.register_commission trade_place_account
      commission) }

/-- One fill of an order, restricted to the commission the aggregator
reads. -/
structure OrderFill where
  commission_amount : Rat
deriving DecidableEq, Repr

/-- The snapshot of an order carried by order events, restricted to the
fields the aggregator reads. -/
structure ClonedOrder where
  client_order_id : Nat
  exchange_account_id : Nat
  currency_pair : Nat
  filled_amount : Rat
  fills : List OrderFill
deriving DecidableEq, Repr

/-- OrderEventType from `orders::event`. -/
inductive OrderEventType
  | CreateOrderSucceeded
  | CancelOrderSucceeded
  | OrderFilled (cloned_order : ClonedOrder)
  | OrderCompleted (cloned_order : ClonedOrder)
deriving DecidableEq, Repr

/-- An order event: the shared order (used for the trade place key and the
cancel path's client order id) and the typed payload. -/
structure OrderEvent where
  order : ClonedOrder
  event_type : OrderEventType
deriving DecidableEq, Repr

/-- ExchangeEvent restricted to what the aggregator distinguishes. -/
inductive ExchangeEvent
  | OrderEvent (order_event : OrderEvent)
  | Other
deriving DecidableEq, Repr

/-- StatisticEventHandler::handle_event. -/
def handle_event (stats : StatisticService) (event : ExchangeEvent) :
    StatisticService :=
  match event with
  | ExchangeEvent.OrderEvent order_event =>
    let trade_place_account := TradePlaceAccount.mk
      order_event.order.exchange_account_id order_event.order.currency_pair
    match order_event.event_type with
    | OrderEventType.CreateOrderSucceeded =>
      stats.register_created_order trade_place_account
    | OrderEventType.CancelOrderSucceeded =>
      stats.register_canceled_order trade_place_account
        order_event.order.client_order_id
    | OrderEventType.OrderFilled cloned_order =>
      stats.register_partially_filled_order trade_place_account
        cloned_order.client_order_id
    | OrderEventType.OrderCompleted cloned_order =>
      let commission := (cloned_order.fills.map OrderFill.commission_amount).sum
      let filled_amount := cloned_order.filled_amount
      stats.register_completely_filled_order trade_place_account
        cloned_order.client_order_id filled_amount commission
  | ExchangeEvent.Other => stats

/-- Number of `increment_partially_filled_orders` calls performed while
handling one event (mirrors the branch structure of the handlers). -/
def pfIncCount (stats : StatisticService) (event : ExchangeEvent) : Nat :=
  match event with
  | ExchangeEvent.OrderEvent order_event =>
    match order_event.event_type with
    | OrderEventType.OrderFilled cloned_order =>
      if cloned_order.client_order_id ∈ stats.partially_filled_orders then 0
      else 1
    | _ => 0
  | ExchangeEvent.Other => 0

/-- Number of `decrement_partially_filled_orders` calls performed while
handling one event (mirrors the branch structure of the handlers). -/
def pfDecCount (stats : StatisticService) (event : ExchangeEvent) : Nat :=
  match event with
  | ExchangeEvent.OrderEvent order_event =>
    match order_event.event_type with
    | OrderEventType.CancelOrderSucceeded =>
      if order_event.order.client_order_id ∈ stats.partially_filled_orders
      then 1 else 0
    | OrderEventType.OrderCompleted cloned_order =>
      if cloned_order.client_order_id ∈ stats.partially_filled_orders then 1
      else 0
    | _ => 0
  | ExchangeEvent.Other => 0

/-- Fold of the single-consumer event loop over an event list. -/
def handleFold (stats : StatisticService) : List ExchangeEvent → StatisticService
  | [] => stats
  | e :: es => handleFold (handle_event stats e) es

/-- Total partially-filled increments over an event list. -/
def pfIncTotal (stats : StatisticService) : List ExchangeEvent → Nat
  | [] => 0
  | e :: es => pfIncCount stats e + pfIncTotal (handle_event stats e) es

/-- Total partially-filled decrements over an event list. -/
def pfDecTotal (stats : StatisticService) : List ExchangeEvent → Nat
  | [] => 0
  | e :: es => pfDecCount stats e + pfDecTotal (handle_event stats e) es

/-- Sum of the partially_filled counters over all trade places. -/
def pfSum (m : TradePlaceStats) : Nat :=
  (m.map fun p => p.2.partially_filled_orders_count).sum

/-- The OrderFilled event of an order, as published by fill processing. -/
def filledEvent (c : ClonedOrder) : ExchangeEvent :=
  ExchangeEvent.OrderEvent ⟨c, OrderEventType.OrderFilled c⟩

/-- The OrderCompleted event of an order. -/
def completedEvent (c : ClonedOrder) : ExchangeEvent :=
  ExchangeEvent.OrderEvent ⟨c, OrderEventType.OrderCompleted c⟩

/-- The CancelOrderSucceeded event of an order. -/
def cancelSucceededEvent (c : ClonedOrder) : ExchangeEvent :=
  ExchangeEvent.OrderEvent ⟨c, OrderEventType.CancelOrderSucceeded⟩

/-- Helper: `updateEntry` with a mutation that does not touch the
partially-filled counter keeps `pfSum`. -/
theorem pfSum_updateEntry_preserve (m : TradePlaceStats)
    (k : TradePlaceAccount)
    (f : TradePlaceAccountStatistic → TradePlaceAccountStatistic)
    (h : ∀ v, (f v).partially_filled_orders_count =
      v.partially_filled_orders_count) :
    pfSum (updateEntry m k f) = pfSum m := by
  induction m with
  | nil => simp [updateEntry, pfSum, h]
  | cons p rest ih =>
    rcases p with ⟨k2, v⟩
    by_cases hk : k2 = k
    · simp [updateEntry, hk, pfSum, h]
    · simp [updateEntry, hk, pfSum] at ih ⊢
      omega

/-- Helper: `updateEntry` with the partially-filled increment raises
`pfSum` by one. -/
theorem pfSum_updateEntry_inc (m : TradePlaceStats) (k : TradePlaceAccount) :
    pfSum (updateEntry m k
      TradePlaceAccountStatistic.increment_partially_filled_orders) =
      pfSum m + 1 := by
  induction m with
  | nil =>
    simp [updateEntry, pfSum,
      TradePlaceAccountStatistic.increment_partially_filled_orders]
  | cons p rest ih =>
    rcases p with ⟨k2, v⟩
    by_cases hk : k2 = k
    · simp [updateEntry, hk, pfSum,
        TradePlaceAccountStatistic.increment_partially_filled_orders]
      omega
    · simp [updateEntry, hk, pfSum] at ih ⊢
      omega

/-- Helper: the guarded partially-filled decrement lowers `pfSum` by at
most one. -/
theorem pfSum_updateEntry_dec (m : TradePlaceStats) (k : TradePlaceAccount) :
    pfSum (updateEntry m k
      TradePlaceAccountStatistic.decrement_partially_filled_orders) ≤ pfSum m ∧
    pfSum m ≤ pfSum (updateEntry m k
      TradePlaceAccountStatistic.decrement_partially_filled_orders) + 1 := by
  induction m with
  | nil =>
    simp [updateEntry, pfSum,
      TradePlaceAccountStatistic.decrement_partially_filled_orders]
  | cons p rest ih =>
    rcases p with ⟨k2, v⟩
    by_cases hk : k2 = k
    · by_cases hv : v.partially_filled_orders_count = 0
      · simp [updateEntry, hk, pfSum,
          TradePlaceAccountStatistic.decrement_partially_filled_orders, hv]
      · simp [updateEntry, hk, pfSum,
          TradePlaceAccountStatistic.decrement_partially_filled_orders, hv]
        omega
    · simp [updateEntry, hk, pfSum] at ih ⊢
      omega

/-- Helper: every handled event preserves the size-versus-counter-sum
invariant of the aggregator. -/
theorem handle_event_statInv (s : StatisticService) (e : ExchangeEvent)
    (h : s.partially_filled_orders.card ≤
      pfSum s.statistic_service_state.trade_place_stats) :
    (handle_event s e).partially_filled_orders.card ≤
      pfSum (handle_event s e).statistic_service_state.trade_place_stats := by
  cases e with
  | Other => exact h
  | OrderEvent oe =>
    rcases oe with ⟨ord, et⟩
    cases et with
    | CreateOrderSucceeded =>
      simp only [handle_event, StatisticService.register_created_order,
        StatisticServiceState.register_created_order]
      rw [pfSum_updateEntry_preserve _ _
        TradePlaceAccountStatistic.register_created_order (fun v => rfl)]
      exact h
    | OrderFilled c =>
      simp only [handle_event, StatisticService.register_partially_filled_order]
      by_cases hmem : c.client_order_id ∈ s.partially_filled_orders
      · simp only [if_pos hmem]
        exact h
      · simp only [if_neg hmem]
        dsimp only [StatisticServiceState.register_partially_filled_order]
        rw [Finset.card_insert_of_not_mem hmem, pfSum_updateEntry_inc]
        omega
    | CancelOrderSucceeded =>
      simp only [handle_event, StatisticService.register_canceled_order,
        StatisticService.remove_filled_order_if_exist]
      by_cases hmem : ord.client_order_id ∈ s.partially_filled_orders
      · simp only [if_pos hmem]
        dsimp only [StatisticServiceState.register_canceled_order,
          StatisticServiceState.decrement_partially_filled_orders]
        have e1 : pfSum (updateEntry s.statistic_service_state.trade_place_stats
            (TradePlaceAccount.mk ord.exchange_account_id ord.currency_pair)
            TradePlaceAccountStatistic.register_canceled_order) =
            pfSum s.statistic_service_state.trade_place_stats :=
          pfSum_updateEntry_preserve _ _ _ (fun v => rfl)
        have e2 := pfSum_updateEntry_dec (updateEntry
          s.statistic_service_state.trade_place_stats
          (TradePlaceAccount.mk ord.exchange_account_id ord.currency_pair)
          TradePlaceAccountStatistic.register_canceled_order)
          (TradePlaceAccount.mk ord.exchange_account_id ord.currency_pair)
        have hpos : 0 < s.partially_filled_orders.card :=
          Finset.card_pos.mpr ⟨_, hmem⟩
        rw [Finset.card_erase_of_mem hmem]
        omega
      · simp only [if_neg hmem]
        dsimp only [StatisticServiceState.register_canceled_order]
        rw [pfSum_updateEntry_preserve _ _
          TradePlaceAccountStatistic.register_canceled_order (fun v => rfl)]
        exact h
    | OrderCompleted c =>
      simp only [handle_event, StatisticService.register_completely_filled_order,
        StatisticService.remove_filled_order_if_exist]
      by_cases hmem : c.client_order_id ∈ s.partially_filled_orders
      · simp only [if_pos hmem]
        dsimp only [StatisticServiceState.register_completely_filled_order,
          StatisticServiceState.decrement_partially_filled_orders,
          StatisticServiceState.register_filled_amount,
          StatisticServiceState.register_commission]
        rw [pfSum_updateEntry_preserve _ _
            (fun v => v.add_summary_commission _) (fun v => rfl),
          pfSum_updateEntry_preserve _ _
            (fun v => v.add_summary_filled_amount _) (fun v => rfl)]
        have e1 : pfSum (updateEntry s.statistic_service_state.trade_place_stats
            (TradePlaceAccount.mk ord.exchange_account_id ord.currency_pair)
            TradePlaceAccountStatistic.increment_completely_filled_orders) =
            pfSum s.statistic_service_state.trade_place_stats :=
          pfSum_updateEntry_preserve _ _ _ (fun v => rfl)
        have e2 := pfSum_updateEntry_dec (updateEntry
          s.statistic_service_state.trade_place_stats
          (TradePlaceAccount.mk ord.exchange_account_id ord.currency_pair)
          TradePlaceAccountStatistic.increment_completely_filled_orders)
          (TradePlaceAccount.mk ord.exchange_account_id ord.currency_pair)
        have hpos : 0 < s.partially_filled_orders.card :=
          Finset.card_pos.mpr ⟨_, hmem⟩
        rw [Finset.card_erase_of_mem hmem]
        omega
      · simp only [if_neg hmem]
        dsimp only [StatisticServiceState.register_completely_filled_order,
          StatisticServiceState.register_filled_amount,
          StatisticServiceState.register_commission]
        rw [pfSum_updateEntry_preserve _ _
            (fun v => v.add_summary_commission _) (fun v => rfl),
          pfSum_updateEntry_preserve _ _
            (fun v => v.add_summary_filled_amount _) (fun v => rfl),
          pfSum_updateEntry_preserve _ _
            TradePlaceAccountStatistic.increment_completely_filled_orders
            (fun v => rfl)]
        exact h

/-- Helper: an OrderFilled event for an already-tracked order leaves the
aggregator unchanged. -/
theorem handle_filled_mem (s : StatisticService) (c : ClonedOrder)
    (h : c.client_order_id ∈ s.partially_filled_orders) :
    handle_event s (filledEvent c) = s := by
  simp [handle_event, filledEvent,
    StatisticService.register_partially_filled_order, h]

/-- Helper: repeated OrderFilled events for a tracked order contribute no
increments and no decrements, and the remaining trace starts from the same
state. -/
theorem pfTotals_replicate_mem (c : ClonedOrder) (n : Nat)
    (s : StatisticService) (l : List ExchangeEvent)
    (h : c.client_order_id ∈ s.partially_filled_orders) :
    pfIncTotal s (List.replicate n (filledEvent c) ++ l) = pfIncTotal s l ∧
    pfDecTotal s (List.replicate n (filledEvent c) ++ l) = pfDecTotal s l := by
  induction n with
  | zero => exact ⟨rfl, rfl⟩
  | succ k ih =>
    have hc : pfIncCount s (filledEvent c) = 0 := by
      simp [pfIncCount, filledEvent, h]
    have hd : pfDecCount s (filledEvent c) = 0 := by
      simp [pfDecCount, filledEvent]
    constructor
    · rw [List.replicate_succ, List.cons_append]
      simp only [pfIncTotal, handle_filled_mem s c h, hc]
      rw [ih.1]
      omega
    · rw [List.replicate_succ, List.cons_append]
      simp only [pfDecTotal, handle_filled_mem s c h, hd]
      rw [ih.2]
      omega

/-- C9: the statistics aggregator keeps
`partially_filled_orders.card ≤ Σ partially_filled` across every handled
event; a partially-filled decrement at zero is ignored so the counter
never drops below zero; and over any OrderFilled* then OrderCompleted (or
CancelOrderSucceeded) trace of one untracked order, `partially_filled` is
incremented at most once and decremented at most once. -/
theorem statistic_service_invariants :
    (∀ (s : StatisticService) (e : ExchangeEvent),
      s.partially_filled_orders.card ≤
        pfSum s.statistic_service_state.trade_place_stats →
      (handle_event s e).partially_filled_orders.card ≤
        pfSum (handle_event s e).statistic_service_state.trade_place_stats) ∧
    (∀ st : TradePlaceAccountStatistic,
      st.partially_filled_orders_count = 0 →
      st.decrement_partially_filled_orders = st) ∧
    (∀ (s : StatisticService) (c : ClonedOrder) (n : Nat)
        (term : ExchangeEvent),
      (term = completedEvent c ∨ term = cancelSucceededEvent c) →
      c.client_order_id ∉ s.partially_filled_orders →
      pfIncTotal s (List.replicate n (filledEvent c) ++ [term]) ≤ 1 ∧
      pfDecTotal s (List.replicate n (filledEvent c) ++ [term]) ≤ 1) := by
  refine ⟨handle_event_statInv, ?_, ?_⟩
  · intro st h
    simp [TradePlaceAccountStatistic.decrement_partially_filled_orders, h]
  · intro s c n term hterm hmem
    have hinc0 : pfIncCount s term = 0 := by
      rcases hterm with rfl | rfl
      · simp [pfIncCount, completedEvent]
      · simp [pfIncCount, cancelSucceededEvent]
    have hdec1 : ∀ s2 : StatisticService, pfDecCount s2 term ≤ 1 := by
      intro s2
      rcases hterm with rfl | rfl
      · simp only [pfDecCount, completedEvent]
        split <;> omega
      · simp only [pfDecCount, cancelSucceededEvent]
        split <;> omega
    cases n with
    | zero =>
      constructor
      · simp only [List.replicate, List.nil_append, pfIncTotal]
        omega
      · simp only [List.replicate, List.nil_append, pfDecTotal]
        have := hdec1 s
        omega
    | succ k =>
      rw [List.replicate_succ, List.cons_append]
      have hc1 : pfIncCount s (filledEvent c) = 1 := by
        simp [pfIncCount, filledEvent, hmem]
      have hd0 : pfDecCount s (filledEvent c) = 0 := by
        simp [pfDecCount, filledEvent]
      have hmem2 : c.client_order_id ∈
          (handle_event s (filledEvent c)).partially_filled_orders := by
        simp [handle_event, filledEvent,
          StatisticService.register_partially_filled_order, hmem]
      have hrep := pfTotals_replicate_mem c k
        (handle_event s (filledEvent c)) [term] hmem2
      constructor
      · simp only [pfIncTotal, hc1]
        rw [hrep.1]
        simp only [pfIncTotal]
        have : pfIncCount (handle_event s (filledEvent c)) term = 0 := by
          rcases hterm with rfl | rfl
          · simp [pfIncCount, completedEvent]
          · simp [pfIncCount, cancelSucceededEvent]
        omega
      · simp only [pfDecTotal, hd0]
        rw [hrep.2]
        simp only [pfDecTotal]
        have := hdec1 (handle_event s (filledEvent c))
        omega

/-- Order snapshot used by the C9 witness. -/
def c9Order : ClonedOrder :=
  { client_order_id := 1, exchange_account_id := 2, currency_pair := 3,
    filled_amount := 1, fills := [{ commission_amount := 1 }] }

/-- Empty aggregator used by the C9 witness. -/
def c9Service : StatisticService :=
  { statistic_service_state :=
      { trade_place_stats := [], disposition_executor_stats := 0 },
    partially_filled_orders := {} }

/-- Witness for C9: the invariant survives an OrderFilled event from the
empty aggregator, a decrement at zero is the identity, and one fill
followed by completion counts one increment and at most one decrement. -/
theorem statistic_service_invariants_witness :
    ((handle_event c9Service (filledEvent c9Order)).partially_filled_orders.card ≤
      pfSum (handle_event c9Service
        (filledEvent c9Order)).statistic_service_state.trade_place_stats) ∧
    TradePlaceAccountStatistic.decrement_partially_filled_orders {} =
      ({} : TradePlaceAccountStatistic) ∧
    (pfIncTotal c9Service
      (List.replicate 1 (filledEvent c9Order) ++ [completedEvent c9Order]) ≤ 1 ∧
     pfDecTotal c9Service
      (List.replicate 1 (filledEvent c9Order) ++ [completedEvent c9Order]) ≤ 1) :=
  ⟨statistic_service_invariants.1 c9Service (filledEvent c9Order) (by decide),
   statistic_service_invariants.2.1 {} rfl,
   statistic_service_invariants.2.2 c9Service c9Order 1
     (completedEvent c9Order) (Or.inl rfl) (by decide)⟩

end Mmb
